import Mathlib

/-!
# Verification of the XR session lifecycle of `bevy_openxr` (`src/xr_init/mod.rs`)

This file gives a shallow embedding of the session lifecycle state machine
implemented in `src/xr_init/mod.rs`: the `XrStatus` resource, the four
lifecycle events registered by `XrEarlyInitPlugin::build`, the event-gated
system registrations of `XrInitPlugin::build`, and the bodies of the four
lifecycle systems `setup_xr`, `cleanup_xr`, `start_xr_session`,
`stop_xr_session`, plus `setup_manual_texture_views`.

Opaque collaborator values (OpenXR session handles, GPU texture views, the
result of `graphics::start_xr_session`, the result of
`XrSession::request_exit`) are modelled as abstract wrapper data or passed
in as explicit parameters; the control flow acting on them is translated
from the source.
-/

namespace BevyOpenxr

/-- The `XrStatus` resource enum (`src/xr_init/mod.rs` lines 23-30). -/
inductive XrStatus
  | NoInstance
  | Enabled
  | Enabling
  | Disabled
  | Disabling
deriving DecidableEq, Repr, Fintype

/-- The four lifecycle event types registered by `XrEarlyInitPlugin::build`:
`SetupXrData`, `CleanupXrData`, `StartXrSession`, `EndXrSession`. -/
inductive XrLifecycleEvent
  | SetupXrData
  | CleanupXrData
  | StartXrSession
  | EndXrSession
deriving DecidableEq, Repr, Fintype

/-- The event types `XrEarlyInitPlugin::build` registers via `add_event`,
in source order (`src/xr_init/mod.rs` lines 48-55). -/
def xrEarlyInitPlugin_build_events : List XrLifecycleEvent :=
  [XrLifecycleEvent.SetupXrData, XrLifecycleEvent.CleanupXrData,
   XrLifecycleEvent.StartXrSession, XrLifecycleEvent.EndXrSession]

/-- Schedule labels appearing in `xr_init`: the Bevy schedules `PreUpdate`
and `PostUpdate` where systems are registered, and the XR lifecycle
schedules run by `setup_xr` / `cleanup_xr` (declared in
`src/xr_init/schedules.rs`, used in `mod.rs`). -/
inductive ScheduleLabel
  | PreUpdate
  | PostUpdate
  | XrPreSetup
  | XrSetup
  | XrPrePostSetup
  | XrPostSetup
  | XrPreCleanup
  | XrCleanup
  | XrPostCleanup
deriving DecidableEq, Repr

/-- Abstract GPU texture view handle (opaque collaborator value). -/
structure TextureView where
  id : Nat
deriving DecidableEq, Repr

/-- Abstract 2-d extent, standing for Bevy's `UVec2`. -/
structure UVec2 where
  x : Nat
  y : Nat
deriving DecidableEq, Repr

/-- Abstract wgpu texture format (opaque collaborator value). -/
structure TextureFormat where
  id : Nat
deriving DecidableEq, Repr

/-- Opaque OpenXR session handle resource (`resources::XrSession`). -/
structure XrSession where
  handle : Nat
deriving DecidableEq, Repr

/-- The `XrResolution` resource: a deref-wrapper around an extent. -/
structure XrResolution where
  res : UVec2
deriving DecidableEq, Repr

/-- The `XrFormat` resource: a deref-wrapper around a texture format. -/
structure XrFormat where
  format : TextureFormat
deriving DecidableEq, Repr

/-- The `XrSessionRunning` resource (opaque flag handle). -/
structure XrSessionRunning where
  flag : Nat
deriving DecidableEq, Repr

/-- The `XrFrameWaiter` resource (opaque handle). -/
structure XrFrameWaiter where
  handle : Nat
deriving DecidableEq, Repr

/-- The `XrSwapchain` resource; `get_render_views` yields the left and
right render views, modelled as stored abstract texture views. -/
structure XrSwapchain where
  render_views : TextureView × TextureView
deriving DecidableEq, Repr

/-- `XrSwapchain::get_render_views`, returning `(left, right)`. -/
def XrSwapchain.get_render_views (s : XrSwapchain) : TextureView × TextureView :=
  s.render_views

/-- The `XrInput` resource (opaque handle). -/
structure XrInput where
  handle : Nat
deriving DecidableEq, Repr

/-- The `XrViews` resource (opaque handle). -/
structure XrViews where
  handle : Nat
deriving DecidableEq, Repr

/-- The `XrFrameState` resource (opaque handle). -/
structure XrFrameState where
  handle : Nat
deriving DecidableEq, Repr

/-- The nine-component tuple returned by `graphics::start_xr_session` on
success, in the order destructured at `src/xr_init/mod.rs` lines 152-161. -/
structure GraphicsData where
  xr_session : XrSession
  xr_resolution : XrResolution
  xr_format : XrFormat
  xr_session_running : XrSessionRunning
  xr_frame_waiter : XrFrameWaiter
  xr_swapchain : XrSwapchain
  xr_input : XrInput
  xr_views : XrViews
  xr_frame_state : XrFrameState
deriving DecidableEq, Repr

/-- One `commands.insert_resource` performed by `start_xr_session`, tagged
with which XR resource it inserts and the inserted value. -/
inductive InsertedXrResource
  | session (v : XrSession)
  | resolution (v : XrResolution)
  | format (v : XrFormat)
  | sessionRunning (v : XrSessionRunning)
  | frameWaiter (v : XrFrameWaiter)
  | swapchain (v : XrSwapchain)
  | input (v : XrInput)
  | views (v : XrViews)
  | frameState (v : XrFrameState)
deriving DecidableEq, Repr

/-- The observable effects of one run of `start_xr_session`: the resulting
`XrStatus` resource value, the `insert_resource` commands issued in order,
and how many `SetupXrData` events were sent. -/
structure StartSessionEffects where
  status : XrStatus
  inserted : List InsertedXrResource
  setupXrDataSent : Nat
deriving DecidableEq, Repr

/-- The body of `start_xr_session` (`src/xr_init/mod.rs` lines 125-187).
The status match mirrors lines 137-151 (every non-`Disabled` arm returns
with nothing done); `graphics_result` stands for the value returned by the
call to `graphics::start_xr_session` at lines 162-169; on `Err` the handler
logs and returns (lines 171-174); on `Ok` it inserts the nine resources in
order, sets the status to `Enabling` and sends one `SetupXrData` event
(lines 176-186). -/
def start_xr_session (status : XrStatus)
    (graphics_result : Except String GraphicsData) : StartSessionEffects :=
  match status with
  | XrStatus.Disabled =>
    match graphics_result with
    | Except.error _ =>
      { status := XrStatus.Disabled, inserted := [], setupXrDataSent := 0 }
    | Except.ok d =>
      { status := XrStatus.Enabling
        inserted :=
          [InsertedXrResource.session d.xr_session,
           InsertedXrResource.resolution d.xr_resolution,
           InsertedXrResource.format d.xr_format,
           InsertedXrResource.sessionRunning d.xr_session_running,
           InsertedXrResource.frameWaiter d.xr_frame_waiter,
           InsertedXrResource.swapchain d.xr_swapchain,
           InsertedXrResource.input d.xr_input,
           InsertedXrResource.views d.xr_views,
           InsertedXrResource.frameState d.xr_frame_state]
        setupXrDataSent := 1 }
  | XrStatus.NoInstance =>
    { status := XrStatus.NoInstance, inserted := [], setupXrDataSent := 0 }
  | XrStatus.Enabled =>
    { status := XrStatus.Enabled, inserted := [], setupXrDataSent := 0 }
  | XrStatus.Enabling =>
    { status := XrStatus.Enabling, inserted := [], setupXrDataSent := 0 }
  | XrStatus.Disabling =>
    { status := XrStatus.Disabling, inserted := [], setupXrDataSent := 0 }

/-- The observable effects of one run of `stop_xr_session`: whether
`session.request_exit()` was called, and the resulting `XrStatus`. -/
structure StopSessionEffects where
  requestedExit : Bool
  status : XrStatus
deriving DecidableEq, Repr

/-- The body of `stop_xr_session` (`src/xr_init/mod.rs` lines 189-197).
`request_exit_result` stands for the value returned by the opaque OpenXR
call `session.request_exit()`; on `Err` the handler only logs. In BOTH
cases the source then executes `*status = XrStatus::Enabling;` (line 196):
the assigned value is `Enabling`, not `Disabling`. -/
def stop_xr_session (request_exit_result : Except String Unit)
    (_status : XrStatus) : StopSessionEffects :=
  match request_exit_result with
  | Except.ok _ => { requestedExit := true, status := XrStatus.Enabling }
  | Except.error _ => { requestedExit := true, status := XrStatus.Enabling }

/-- The fragment of the Bevy `World` the exclusive systems `setup_xr` and
`cleanup_xr` touch: the `XrStatus` resource and the trace of schedules run
via `world.run_schedule`. -/
structure XrWorld where
  status : XrStatus
  ranSchedules : List ScheduleLabel
deriving DecidableEq, Repr

/-- `world.run_schedule(label)`: appends the label to the run trace. -/
def XrWorld.run_schedule (w : XrWorld) (l : ScheduleLabel) : XrWorld :=
  { w with ranSchedules := w.ranSchedules ++ [l] }

/-- The body of `setup_xr` (`src/xr_init/mod.rs` lines 99-105): run the
schedules `XrPreSetup`, `XrSetup`, `XrPrePostSetup`, `XrPostSetup` in that
order, then set the `XrStatus` resource to `Enabled`. -/
def setup_xr (w : XrWorld) : XrWorld :=
  let w := w.run_schedule ScheduleLabel.XrPreSetup
  let w := w.run_schedule ScheduleLabel.XrSetup
  let w := w.run_schedule ScheduleLabel.XrPrePostSetup
  let w := w.run_schedule ScheduleLabel.XrPostSetup
  { w with status := XrStatus.Enabled }

/-- The body of `cleanup_xr` (`src/xr_init/mod.rs` lines 106-111): run the
schedules `XrPreCleanup`, `XrCleanup`, `XrPostCleanup` in that order, then
set the `XrStatus` resource to `Disabled`. -/
def cleanup_xr (w : XrWorld) : XrWorld :=
  let w := w.run_schedule ScheduleLabel.XrPreCleanup
  let w := w.run_schedule ScheduleLabel.XrCleanup
  let w := w.run_schedule ScheduleLabel.XrPostCleanup
  { w with status := XrStatus.Disabled }

/-- The systems `XrInitPlugin::build` registers. -/
inductive XrSystemId
  | setup_xr
  | cleanup_xr
  | start_xr_session
  | stop_xr_session
  | setup_manual_texture_views
deriving DecidableEq, Repr

/-- One `add_systems` registration: the target schedule, the system, and
its `run_if(on_event::<E>())` gate when present. -/
structure SystemRegistration where
  schedule : ScheduleLabel
  system : XrSystemId
  gate : Option XrLifecycleEvent
deriving DecidableEq, Repr

/-- The system registrations performed by `XrInitPlugin::build`
(`src/xr_init/mod.rs` lines 57-75), in source order. -/
def xrInitPlugin_systems : List SystemRegistration :=
  [{ schedule := ScheduleLabel.PreUpdate, system := XrSystemId.setup_xr,
     gate := some XrLifecycleEvent.SetupXrData },
   { schedule := ScheduleLabel.PreUpdate, system := XrSystemId.cleanup_xr,
     gate := some XrLifecycleEvent.CleanupXrData },
   { schedule := ScheduleLabel.PostUpdate, system := XrSystemId.start_xr_session,
     gate := some XrLifecycleEvent.StartXrSession },
   { schedule := ScheduleLabel.PostUpdate, system := XrSystemId.stop_xr_session,
     gate := some XrLifecycleEvent.EndXrSession },
   { schedule := ScheduleLabel.XrSetup, system := XrSystemId.setup_manual_texture_views,
     gate := none }]

/-- Semantics of a `run_if(on_event)` gate in one engine frame:
`occurred e` says whether an event of type `e` occurred this frame. An
ungated system always runs; a gated system runs exactly when its event
occurred. -/
def gatePasses (gate : Option XrLifecycleEvent)
    (occurred : XrLifecycleEvent → Bool) : Bool :=
  match gate with
  | some e => occurred e
  | none => true

/-- Whether a registered system runs in a frame with the given events. -/
def systemRunsInFrame (reg : SystemRegistration)
    (occurred : XrLifecycleEvent → Bool) : Bool :=
  gatePasses reg.gate occurred

/-- `LEFT_XR_TEXTURE_HANDLE` (declared in the crate root, outside
`xr_init/mod.rs`): an abstract manual-texture-view handle, distinct from
the right one. -/
def LEFT_XR_TEXTURE_HANDLE : Nat := 0

/-- `RIGHT_XR_TEXTURE_HANDLE` (declared in the crate root, outside
`xr_init/mod.rs`): an abstract manual-texture-view handle, distinct from
the left one. -/
def RIGHT_XR_TEXTURE_HANDLE : Nat := 1

/-- An entry of Bevy's `ManualTextureViews` map. -/
structure ManualTextureView where
  texture_view : TextureView
  size : UVec2
  format : TextureFormat
deriving DecidableEq, Repr

/-- Bevy's `ManualTextureViews` resource, as a map from handles. -/
def ManualTextureViews := Nat → Option ManualTextureView

/-- `ManualTextureViews::insert` (map insert/overwrite semantics). -/
def ManualTextureViews.insert (m : ManualTextureViews) (k : Nat)
    (v : ManualTextureView) : ManualTextureViews :=
  fun h => if h = k then some v else m h

/-- The body of `setup_manual_texture_views` (`src/xr_init/mod.rs` lines
77-97): take `(left, right)` from `swapchain.get_render_views()`, build a
`ManualTextureView` from each with size `**xr_resolution` and format
`**xr_format`, and insert them under `LEFT_XR_TEXTURE_HANDLE` and
`RIGHT_XR_TEXTURE_HANDLE`. -/
def setup_manual_texture_views (manual_texture_views : ManualTextureViews)
    (swapchain : XrSwapchain) (xr_resolution : XrResolution)
    (xr_format : XrFormat) : ManualTextureViews :=
  let lr := swapchain.get_render_views
  let left : ManualTextureView :=
    { texture_view := lr.1, size := xr_resolution.res, format := xr_format.format }
  let right : ManualTextureView :=
    { texture_view := lr.2, size := xr_resolution.res, format := xr_format.format }
  (manual_texture_views.insert LEFT_XR_TEXTURE_HANDLE left).insert
    RIGHT_XR_TEXTURE_HANDLE right

/-- A concrete successful graphics result, used by witnesses. -/
def exampleGraphicsData : GraphicsData :=
  { xr_session := { handle := 1 }
    xr_resolution := { res := { x := 1024, y := 1024 } }
    xr_format := { format := { id := 7 } }
    xr_session_running := { flag := 0 }
    xr_frame_waiter := { handle := 2 }
    xr_swapchain := { render_views := ({ id := 10 }, { id := 11 }) }
    xr_input := { handle := 3 }
    xr_views := { handle := 4 }
    xr_frame_state := { handle := 5 } }

/-- Claim C1 (code bug evidence): at the failing input — `XrStatus` is
`Enabled`, an `EndXrSession` event is handled, and `request_exit` returns
`Ok` — `stop_xr_session` does request session exit, but sets the `XrStatus`
resource to `Enabling`, not `Disabling` as the lifecycle chain
`Enabled → Disabling → Disabled` requires (`src/xr_init/mod.rs` line 196). -/
theorem stop_xr_session_sets_enabling_not_disabling :
    (stop_xr_session (Except.ok ()) XrStatus.Enabled).requestedExit = true ∧
    (stop_xr_session (Except.ok ()) XrStatus.Enabled).status = XrStatus.Enabling ∧
    (stop_xr_session (Except.ok ()) XrStatus.Enabled).status ≠ XrStatus.Disabling := by
  refine ⟨rfl, rfl, ?_⟩
  decide

/-- Claim C2: handling `StartXrSession` with status `Disabled` and a
successful `graphics::start_xr_session` inserts the nine returned XR
resources in source order, sets the status to `Enabling`, and sends exactly
one `SetupXrData` event. -/
theorem start_xr_session_disabled_ok (d : GraphicsData) :
    start_xr_session XrStatus.Disabled (Except.ok d) =
      { status := XrStatus.Enabling
        inserted :=
          [InsertedXrResource.session d.xr_session,
           InsertedXrResource.resolution d.xr_resolution,
           InsertedXrResource.format d.xr_format,
           InsertedXrResource.sessionRunning d.xr_session_running,
           InsertedXrResource.frameWaiter d.xr_frame_waiter,
           InsertedXrResource.swapchain d.xr_swapchain,
           InsertedXrResource.input d.xr_input,
           InsertedXrResource.views d.xr_views,
           InsertedXrResource.frameState d.xr_frame_state]
        setupXrDataSent := 1 } := rfl

/-- Claim C3: `setup_xr` runs the schedules `XrPreSetup`, `XrSetup`,
`XrPrePostSetup`, `XrPostSetup` in exactly that order and then sets the
`XrStatus` resource to `Enabled`. -/
theorem setup_xr_schedules_then_enabled (w : XrWorld) :
    setup_xr w =
      { status := XrStatus.Enabled
        ranSchedules := w.ranSchedules ++
          [ScheduleLabel.XrPreSetup, ScheduleLabel.XrSetup,
           ScheduleLabel.XrPrePostSetup, ScheduleLabel.XrPostSetup] } := by
  simp [setup_xr, XrWorld.run_schedule]

/-- Claim C4: `cleanup_xr` runs the schedules `XrPreCleanup`, `XrCleanup`,
`XrPostCleanup` in exactly that order and then sets the `XrStatus`
resource to `Disabled`. -/
theorem cleanup_xr_schedules_then_disabled (w : XrWorld) :
    cleanup_xr w =
      { status := XrStatus.Disabled
        ranSchedules := w.ranSchedules ++
          [ScheduleLabel.XrPreCleanup, ScheduleLabel.XrCleanup,
           ScheduleLabel.XrPostCleanup] } := by
  simp [cleanup_xr, XrWorld.run_schedule]

/-- Claim C5 counterexample: handling `StartXrSession` from `NoInstance`
does NOT transition to `Enabling`: at the concrete input (`NoInstance`,
graphics result irrelevant), `start_xr_session` leaves the status at
`NoInstance` (the `warn!("... without instance, ignoring")` early return),
and `NoInstance ≠ Enabling`. -/
theorem start_xr_session_no_noinstance_edge :
    (start_xr_session XrStatus.NoInstance
        (Except.ok exampleGraphicsData)).status = XrStatus.NoInstance ∧
    (start_xr_session XrStatus.NoInstance
        (Except.ok exampleGraphicsData)).status ≠ XrStatus.Enabling := by
  refine ⟨rfl, ?_⟩
  decide

/-- Claim C5 (amended): the `StartXrSession`-handling step enters
`Enabling` only from `Disabled`: from `Disabled` with a successful graphics
start the status becomes `Enabling`, while from `NoInstance` the handler
leaves the status unchanged at `NoInstance` for every graphics result. -/
theorem start_xr_session_enabling_edge_from_disabled :
    (∀ d : GraphicsData,
      (start_xr_session XrStatus.Disabled (Except.ok d)).status
        = XrStatus.Enabling) ∧
    (∀ g : Except String GraphicsData,
      (start_xr_session XrStatus.NoInstance g).status = XrStatus.NoInstance) := by
  constructor
  · intro d
    rfl
  · intro g
    cases g <;> rfl

/-- Claim C6: `XrStatus` has exactly five states, and
`XrEarlyInitPlugin::build` registers exactly the four lifecycle events
`SetupXrData`, `CleanupXrData`, `StartXrSession`, `EndXrSession`: the
registered list has four distinct entries and every lifecycle event type
is among them. -/
theorem xrStatus_five_states_four_events :
    Fintype.card XrStatus = 5 ∧
    xrEarlyInitPlugin_build_events =
      [XrLifecycleEvent.SetupXrData, XrLifecycleEvent.CleanupXrData,
       XrLifecycleEvent.StartXrSession, XrLifecycleEvent.EndXrSession] ∧
    xrEarlyInitPlugin_build_events.length = 4 ∧
    xrEarlyInitPlugin_build_events.Nodup ∧
    ∀ e : XrLifecycleEvent, e ∈ xrEarlyInitPlugin_build_events := by
  refine ⟨?_, rfl, rfl, ?_, ?_⟩ <;> decide

/-- Claim C7: the four lifecycle systems are registered with
`run_if(on_event::<E>())` for their respective events, and under the gate
semantics a gated system runs in a frame only if its event occurred: for
every registration of `XrInitPlugin::build` that runs in a frame, if it is
one of the four lifecycle systems then its gate is its event and that
event occurred in the frame. -/
theorem lifecycle_systems_event_gated :
    ∀ reg ∈ xrInitPlugin_systems, ∀ occurred : XrLifecycleEvent → Bool,
      systemRunsInFrame reg occurred = true →
      ((reg.system = XrSystemId.setup_xr →
          reg.gate = some XrLifecycleEvent.SetupXrData ∧
          occurred XrLifecycleEvent.SetupXrData = true) ∧
       (reg.system = XrSystemId.cleanup_xr →
          reg.gate = some XrLifecycleEvent.CleanupXrData ∧
          occurred XrLifecycleEvent.CleanupXrData = true) ∧
       (reg.system = XrSystemId.start_xr_session →
          reg.gate = some XrLifecycleEvent.StartXrSession ∧
          occurred XrLifecycleEvent.StartXrSession = true) ∧
       (reg.system = XrSystemId.stop_xr_session →
          reg.gate = some XrLifecycleEvent.EndXrSession ∧
          occurred XrLifecycleEvent.EndXrSession = true)) := by
  intro reg hreg occurred hrun
  simp only [xrInitPlugin_systems, List.mem_cons, List.not_mem_nil, or_false] at hreg
  rcases hreg with rfl | rfl | rfl | rfl | rfl <;>
    simp_all [systemRunsInFrame, gatePasses]

/-- Claim C7 witness: the `setup_xr` registration is in the registration
list, and in a frame where every event occurred the gate conclusion holds
for it. -/
theorem lifecycle_systems_event_gated_witness :
    ({ schedule := ScheduleLabel.PreUpdate, system := XrSystemId.setup_xr,
       gate := some XrLifecycleEvent.SetupXrData } : SystemRegistration).gate
        = some XrLifecycleEvent.SetupXrData ∧
    (fun _ : XrLifecycleEvent => true) XrLifecycleEvent.SetupXrData = true :=
  (lifecycle_systems_event_gated
    { schedule := ScheduleLabel.PreUpdate, system := XrSystemId.setup_xr,
      gate := some XrLifecycleEvent.SetupXrData }
    (by decide) (fun _ => true) rfl).1 rfl

/-- Claim C8: `setup_manual_texture_views` inserts, under
`LEFT_XR_TEXTURE_HANDLE` and `RIGHT_XR_TEXTURE_HANDLE`, the left and right
render views of the `XrSwapchain` resource, each with size equal to the
`XrResolution` resource and format equal to the `XrFormat` resource. -/
theorem setup_manual_texture_views_inserts_left_right
    (m : ManualTextureViews) (sw : XrSwapchain) (res : XrResolution)
    (fmt : XrFormat) :
    setup_manual_texture_views m sw res fmt LEFT_XR_TEXTURE_HANDLE =
      some { texture_view := sw.get_render_views.1, size := res.res,
             format := fmt.format } ∧
    setup_manual_texture_views m sw res fmt RIGHT_XR_TEXTURE_HANDLE =
      some { texture_view := sw.get_render_views.2, size := res.res,
             format := fmt.format } := by
  constructor <;> rfl

/-- Claim C9: for every status other than `Disabled` (that is, for
`NoInstance`, `Enabled`, `Enabling`, `Disabling`), `start_xr_session` is a
no-op: the status is unchanged, no resource is inserted, and no
`SetupXrData` event is sent, whatever the graphics result would be. -/
theorem start_xr_session_noop_unless_disabled (s : XrStatus)
    (g : Except String GraphicsData) (h : s ≠ XrStatus.Disabled) :
    start_xr_session s g =
      { status := s, inserted := [], setupXrDataSent := 0 } := by
  cases s
  case Disabled => exact absurd rfl h
  all_goals rfl

/-- Claim C9 witness: instantiation at status `Enabled` with a successful
graphics result. -/
theorem start_xr_session_noop_unless_disabled_witness :
    start_xr_session XrStatus.Enabled (Except.ok exampleGraphicsData) =
      { status := XrStatus.Enabled, inserted := [], setupXrDataSent := 0 } :=
  start_xr_session_noop_unless_disabled XrStatus.Enabled
    (Except.ok exampleGraphicsData) (by decide)

/-- Claim C10: if `graphics::start_xr_session` fails while the status is
`Disabled`, the handler is atomic on error: the status stays `Disabled`,
no resource is inserted, and no `SetupXrData` event is sent. -/
theorem start_xr_session_error_atomic (err : String) :
    start_xr_session XrStatus.Disabled (Except.error err) =
      { status := XrStatus.Disabled, inserted := [], setupXrDataSent := 0 } := rfl

end BevyOpenxr
